import Mathlib

/-
Shallow embedding of src/app.py: a products API with primary/replica
PostgreSQL stores and a best-effort Redis cache-aside layer.

Modelling conventions:
- A product row (RealDictRow of id, name, price_cents, updated_at) is the
  `Product` structure.  `updated_at` is `Option Nat` so that a NULL
  timestamp is representable; the store sets it to the current clock.
- The Redis cache is an association list of entries (key, value, ttl);
  `setex` overwrites the key with a fresh ttl, `delete` removes it.
  Cached values are the parsed product row dicts that redis_set_json
  serialises (a non-empty dict, hence truthy under Python `if cached:`,
  so presence of a value coincides with truthiness).
- Connectivity is an oracle: each client call in a request is assigned a
  behaviour (answer normally, or raise a given exception class).  The
  psycopg2 exception classes are `PgExc`; the classes caught by
  `except (psycopg2.OperationalError, psycopg2.InterfaceError)` are
  exactly those with `isConnectivity = true`.  The redis / socket
  exception classes the redis client raises are `CacheErr`; the adapter
  clause `except (redis.exceptions.RedisError, OSError, ConnectionError)`
  catches those with `cacheCaught = true`.
- Fallible Python code is `Except`: an `Except.error` escaping a function
  is an exception propagating to the caller.  HTTPException responses are
  the `ApiResult` constructors badRequest / notFound / unavailable; an
  exception that no handler catches is `uncaughtDb` / `uncaughtCache`.
- Every request returns an event trace (`List Ev`), one event per
  adapter/store call in program order, used to state call-count and
  ordering properties.
-/

namespace ProductsApi

/-- A product row as returned by the store's RETURNING / SELECT lists
(id, name, price_cents, updated_at). -/
structure Product where
  id : Nat
  name : String
  price_cents : Int
  updated_at : Option Nat
deriving DecidableEq, Repr

/-- psycopg2 exception classes that a store call can raise.  `otherError`
covers every non-connectivity class (e.g. ProgrammingError, DataError),
identified by its class name. -/
inductive PgExc where
  | operationalError
  | interfaceError
  | otherError (className : String)
deriving DecidableEq, Repr

/-- The exception classes caught by the clauses
`except (psycopg2.OperationalError, psycopg2.InterfaceError)` in app.py. -/
def PgExc.isConnectivity : PgExc → Bool
  | .operationalError => true
  | .interfaceError => true
  | .otherError _ => false

/-- Exception classes the redis client can raise on a cache operation
(redis protocol errors, socket errors, connection errors). -/
inductive CacheErr where
  | redisError
  | osError
  | connectionError
deriving DecidableEq, Repr

/-- The exception tuple of the adapters' clause
`except (redis.exceptions.RedisError, OSError, ConnectionError)`. -/
def cacheCaught : CacheErr → Bool
  | .redisError => true
  | .osError => true
  | .connectionError => true

/-- One Redis entry: key, stored (serialised) product value, and the ttl
it was set with. -/
structure CEntry where
  key : String
  value : Product
  ttl : Nat
deriving DecidableEq, Repr

/-- The Redis keyspace. -/
abbrev Cache := List CEntry

/-- Value stored under a key, if any (`r.get`). -/
def cacheLookup (c : Cache) (k : String) : Option Product :=
  (c.find? (fun e => e.key == k)).map (fun e => e.value)

/-- Effect of `r.setex key ttl value`: overwrite the key with a fresh ttl. -/
def cacheStore (c : Cache) (k : String) (v : Product) (ttl : Nat) : Cache :=
  ⟨k, v, ttl⟩ :: c.filter (fun e => e.key != k)

/-- Effect of `r.delete key`. -/
def cacheErase (c : Cache) (k : String) : Cache :=
  c.filter (fun e => e.key != k)

/-- Behaviour of one cache client call: complete, or raise a client
exception (connection refused, timeout, protocol error, ...). -/
inductive CacheOp where
  | success
  | failure (e : CacheErr)
deriving DecidableEq, Repr

/-- The raw redis client call `r.get key`. -/
def r_get (beh : CacheOp) (c : Cache) (k : String) :
    Except CacheErr (Option Product) :=
  match beh with
  | .success => .ok (cacheLookup c k)
  | .failure e => .error e

/-- The raw redis client call `r.setex key ttl value`, returning the new
keyspace. -/
def r_setex (beh : CacheOp) (c : Cache) (k : String) (ttl : Nat)
    (v : Product) : Except CacheErr Cache :=
  match beh with
  | .success => .ok (cacheStore c k v ttl)
  | .failure e => .error e

/-- The raw redis client call `r.delete key`, returning the new keyspace. -/
def r_delete (beh : CacheOp) (c : Cache) (k : String) :
    Except CacheErr Cache :=
  match beh with
  | .success => .ok (cacheErase c k)
  | .failure e => .error e

/-- redis_get_json (app.py lines 61-67): try `r.get`; on a caught client
exception return None.  The deserialisation `json.loads` is the identity
here because cached values are modelled already parsed. -/
def redis_get_json (beh : CacheOp) (c : Cache) (k : String) :
    Except CacheErr (Option Product) :=
  match r_get beh c k with
  | .ok v => .ok v
  | .error e => if cacheCaught e then .ok none else .error e

/-- redis_set_json (app.py lines 69-73): try `r.setex`; on a caught client
exception drop the write (keyspace unchanged). -/
def redis_set_json (beh : CacheOp) (c : Cache) (k : String) (v : Product)
    (ttl : Nat) : Except CacheErr Cache :=
  match r_setex beh c k ttl v with
  | .ok c' => .ok c'
  | .error e => if cacheCaught e then .ok c else .error e

/-- redis_del (app.py lines 76-80): try `r.delete`; on a caught client
exception drop the delete. -/
def redis_del (beh : CacheOp) (c : Cache) (k : String) :
    Except CacheErr Cache :=
  match r_delete beh c k with
  | .ok c' => .ok c'
  | .error e => if cacheCaught e then .ok c else .error e

/-- cache_key (app.py line 55): the string product:{id}. -/
def cache_key (product_id : Nat) : String :=
  "product:" ++ toString product_id

/-- State of one PostgreSQL database: its products table, the sequence
value behind the id column, and the clock behind now(). -/
structure Store where
  rows : List Product
  nextId : Nat
  now : Nat
deriving DecidableEq, Repr

/-- Behaviour of one store client call: execute normally, or raise a
psycopg2 exception. -/
inductive DbOp where
  | answers
  | raises (e : PgExc)
deriving DecidableEq, Repr

/-- fetch_product_from_db (app.py lines 83-90): SELECT id, name,
price_cents, updated_at FROM products WHERE id = %s, fetchone.  `rows` is
the table at the chosen DSN. -/
def fetch_product_from_db (beh : DbOp) (rows : List Product)
    (product_id : Nat) : Except PgExc (Option Product) :=
  match beh with
  | .answers => .ok (rows.find? (fun r => r.id == product_id))
  | .raises e => .error e

/-- The UPDATE ... SET fields, updated_at = now() WHERE id = %s RETURNING
statement of update_product, run in one transaction on the primary: the
matching row gets the supplied fields and the server clock; no match
returns no row and changes nothing.  On an exception the transaction is
left uncommitted, so the state is unchanged. -/
def db_update (beh : DbOp) (s : Store) (product_id : Nat)
    (name : Option String) (price_cents : Option Int) :
    Except PgExc (Option Product × Store) :=
  match beh with
  | .raises e => .error e
  | .answers =>
    match s.rows.find? (fun r => r.id == product_id) with
    | none => .ok (none, s)
    | some r =>
      let r' : Product :=
        { r with
          name := name.getD r.name
          price_cents := price_cents.getD r.price_cents
          updated_at := some s.now }
      .ok (some r',
        { s with rows := s.rows.map (fun q => if q.id == product_id then r' else q) })

/-- The INSERT INTO products (name, price_cents) RETURNING statement of
create_product, run in one transaction on the primary.  The id and the
updated_at come from the table defaults, which live in the schema (an
external collaborator); modelled from the spec: the id is store-assigned
(the next sequence value) and updated_at is set by the store to now. -/
def db_insert (beh : DbOp) (s : Store) (name : String) (price_cents : Int) :
    Except PgExc (Product × Store) :=
  match beh with
  | .raises e => .error e
  | .answers =>
    let p : Product := ⟨s.nextId, name, price_cents, some s.now⟩
    .ok (p, { rows := s.rows ++ [p], nextId := s.nextId + 1, now := s.now })

/-- One adapter or store call, in program order. -/
inductive Ev where
  | cacheGet
  | cacheSet
  | cacheDel
  | replicaFetch
  | primaryFetch
  | primaryUpdate
  | primaryInsert
  | commit
deriving DecidableEq, Repr

/-- Number of replica queries in a trace. -/
def replicaCalls : List Ev → Nat
  | [] => 0
  | .replicaFetch :: tr => replicaCalls tr + 1
  | _ :: tr => replicaCalls tr

/-- Number of primary queries (reads) in a trace. -/
def primaryCalls : List Ev → Nat
  | [] => 0
  | .primaryFetch :: tr => primaryCalls tr + 1
  | _ :: tr => primaryCalls tr

/-- Number of store accesses of any kind in a trace. -/
def storeCalls : List Ev → Nat
  | [] => 0
  | .replicaFetch :: tr => storeCalls tr + 1
  | .primaryFetch :: tr => storeCalls tr + 1
  | .primaryUpdate :: tr => storeCalls tr + 1
  | .primaryInsert :: tr => storeCalls tr + 1
  | _ :: tr => storeCalls tr

/-- Number of cache set attempts in a trace. -/
def cacheSetCalls : List Ev → Nat
  | [] => 0
  | .cacheSet :: tr => cacheSetCalls tr + 1
  | _ :: tr => cacheSetCalls tr

/-- The behaviours the environment assigns to each client call a single
request can make. -/
structure Beh where
  cacheGet : CacheOp
  cacheSet : CacheOp
  cacheDel : CacheOp
  replica : DbOp
  primary : DbOp
deriving DecidableEq, Repr

/-- Every client call completes normally. -/
def behAllOk : Beh :=
  ⟨.success, .success, .success, .answers, .answers⟩

/-- Outcome of one request at the boundary: a record, an HTTPException
(400 / 404 / 503, the 503 detail carrying the exception class), or an
exception that no handler catches and that propagates raw. -/
inductive ApiResult where
  | ok (p : Product)
  | badRequest
  | notFound
  | unavailable (e : PgExc)
  | uncaughtDb (e : PgExc)
  | uncaughtCache (e : CacheErr)
deriving DecidableEq, Repr

/-- Configuration surface: CACHE_TTL_SECONDS (default 60). -/
structure Config where
  cacheTtlSeconds : Nat
deriving DecidableEq, Repr

/-- The default configuration. -/
def defaultConfig : Config := ⟨60⟩

/-- Steps 113-118 of get_product, shared by both fetch targets: 404 when
no row, else best-effort cache write then return the row. -/
def finishGet (cfg : Config) (b : Beh) (cache : Cache) (key : String)
    (row : Option Product) (tr : List Ev) : ApiResult × Cache × List Ev :=
  match row with
  | none => (.notFound, cache, tr)
  | some p =>
    match redis_set_json b.cacheSet cache key p cfg.cacheTtlSeconds with
    | .ok cache' => (.ok p, cache', tr ++ [.cacheSet])
    | .error e => (.uncaughtCache e, cache, tr ++ [.cacheSet])

/-- get_product (app.py lines 93-118): best-effort cache probe; on a miss
fetch from the replica, falling back to the primary only on a
connectivity exception; 404 on no row; best-effort cache write on a row.
Returns the HTTP outcome, the cache keyspace after the request, and the
trace of client calls. -/
def get_product (cfg : Config) (b : Beh) (replicaRows primaryRows : List Product)
    (cache : Cache) (product_id : Nat) : ApiResult × Cache × List Ev :=
  let key := cache_key product_id
  match redis_get_json b.cacheGet cache key with
  | .error e => (.uncaughtCache e, cache, [.cacheGet])
  | .ok (some cached) => (.ok cached, cache, [.cacheGet])
  | .ok none =>
    match fetch_product_from_db b.replica replicaRows product_id with
    | .ok row => finishGet cfg b cache key row [.cacheGet, .replicaFetch]
    | .error e =>
      if e.isConnectivity then
        match fetch_product_from_db b.primary primaryRows product_id with
        | .ok row =>
          finishGet cfg b cache key row [.cacheGet, .replicaFetch, .primaryFetch]
        | .error e2 =>
          if e2.isConnectivity then
            (.unavailable e2, cache, [.cacheGet, .replicaFetch, .primaryFetch])
          else
            (.uncaughtDb e2, cache, [.cacheGet, .replicaFetch, .primaryFetch])
      else
        (.uncaughtDb e, cache, [.cacheGet, .replicaFetch])

/-- update_product (app.py lines 121-161): 400 when both fields are
absent; otherwise one UPDATE on the primary (503 on a connectivity
exception); 404 when no row matched; on success, best-effort cache
delete after the commit, then return the updated row.  Returns the HTTP
outcome, the cache, the primary store, and the trace. -/
def update_product (b : Beh) (cache : Cache) (store : Store)
    (product_id : Nat) (name : Option String) (price_cents : Option Int) :
    ApiResult × Cache × Store × List Ev :=
  if name.isNone && price_cents.isNone then
    (.badRequest, cache, store, [])
  else
    match db_update b.primary store product_id name price_cents with
    | .error e =>
      if e.isConnectivity then (.unavailable e, cache, store, [.primaryUpdate])
      else (.uncaughtDb e, cache, store, [.primaryUpdate])
    | .ok (none, s') => (.notFound, cache, s', [.primaryUpdate, .commit])
    | .ok (some p, s') =>
      match redis_del b.cacheDel cache (cache_key product_id) with
      | .ok cache' => (.ok p, cache', s', [.primaryUpdate, .commit, .cacheDel])
      | .error e => (.uncaughtCache e, cache, s', [.primaryUpdate, .commit, .cacheDel])

/-- create_product (app.py lines 164-185): one INSERT on the primary (503
on a connectivity exception); on success, best-effort cache prefill under
product:{id}, then return the created row. -/
def create_product (cfg : Config) (b : Beh) (cache : Cache) (store : Store)
    (name : String) (price_cents : Int) :
    ApiResult × Cache × Store × List Ev :=
  match db_insert b.primary store name price_cents with
  | .error e =>
    if e.isConnectivity then (.unavailable e, cache, store, [.primaryInsert])
    else (.uncaughtDb e, cache, store, [.primaryInsert])
  | .ok (p, s') =>
    match redis_set_json b.cacheSet cache (cache_key p.id) p cfg.cacheTtlSeconds with
    | .ok cache' => (.ok p, cache', s', [.primaryInsert, .commit, .cacheSet])
    | .error e => (.uncaughtCache e, cache, s', [.primaryInsert, .commit, .cacheSet])

/-! Helper lemmas shared by the claim theorems. -/

/-- Every exception class the redis client can raise is in the adapters'
except tuple. -/
theorem cacheCaught_all (e : CacheErr) : cacheCaught e = true := by
  cases e <;> rfl

/-- A failed cache read is absorbed: the adapter answers "absent". -/
theorem redis_get_json_failure (e : CacheErr) (c : Cache) (k : String) :
    redis_get_json (.failure e) c k = .ok none := by
  simp [redis_get_json, r_get, cacheCaught_all]

/-- A failed cache write is absorbed: the adapter completes, keyspace
unchanged. -/
theorem redis_set_json_failure (e : CacheErr) (c : Cache) (k : String)
    (v : Product) (t : Nat) : redis_set_json (.failure e) c k v t = .ok c := by
  simp [redis_set_json, r_setex, cacheCaught_all]

/-- A failed cache delete is absorbed: the adapter completes, keyspace
unchanged. -/
theorem redis_del_failure (e : CacheErr) (c : Cache) (k : String) :
    redis_del (.failure e) c k = .ok c := by
  simp [redis_del, r_delete, cacheCaught_all]

/-- The cache-read adapter never raises. -/
theorem redis_get_json_total (beh : CacheOp) (c : Cache) (k : String) :
    ∃ v, redis_get_json beh c k = .ok v := by
  cases beh with
  | success => exact ⟨_, rfl⟩
  | failure e => exact ⟨none, redis_get_json_failure e c k⟩

/-- The cache-write adapter never raises. -/
theorem redis_set_json_total (beh : CacheOp) (c : Cache) (k : String)
    (v : Product) (t : Nat) : ∃ c', redis_set_json beh c k v t = .ok c' := by
  cases beh with
  | success => exact ⟨_, rfl⟩
  | failure e => exact ⟨c, redis_set_json_failure e c k v t⟩

/-- The cache-delete adapter never raises. -/
theorem redis_del_total (beh : CacheOp) (c : Cache) (k : String) :
    ∃ c', redis_del beh c k = .ok c' := by
  cases beh with
  | success => exact ⟨_, rfl⟩
  | failure e => exact ⟨c, redis_del_failure e c k⟩

/-- When the key is absent, the cache probe reports a miss whatever the
client does. -/
theorem redis_get_json_of_miss (beh : CacheOp) (c : Cache) (k : String)
    (h : cacheLookup c k = none) : redis_get_json beh c k = .ok none := by
  cases beh with
  | success => simp [redis_get_json, r_get, h]
  | failure e => exact redis_get_json_failure e c k

/-- The HTTP outcome of the shared tail of get_product depends only on the
row. -/
theorem finishGet_fst (cfg : Config) (b : Beh) (c : Cache) (k : String)
    (row : Option Product) (tr : List Ev) :
    (finishGet cfg b c k row tr).1 =
      (match row with
       | none => ApiResult.notFound
       | some p => ApiResult.ok p) := by
  cases row with
  | none => rfl
  | some p =>
    obtain ⟨c', hc'⟩ := redis_set_json_total b.cacheSet c k p cfg.cacheTtlSeconds
    simp [finishGet, hc']

/-- The shared tail of get_product adds at most a cacheSet event to the
trace. -/
theorem finishGet_trace (cfg : Config) (b : Beh) (c : Cache) (k : String)
    (row : Option Product) (tr : List Ev) :
    (finishGet cfg b c k row tr).2.2 = tr ∨
    (finishGet cfg b c k row tr).2.2 = tr ++ [Ev.cacheSet] := by
  cases row with
  | none => exact Or.inl rfl
  | some p =>
    obtain ⟨c', hc'⟩ := redis_set_json_total b.cacheSet c k p cfg.cacheTtlSeconds
    exact Or.inr (by simp [finishGet, hc'])

/-- Counting replica queries distributes over trace concatenation. -/
theorem replicaCalls_append (a b : List Ev) :
    replicaCalls (a ++ b) = replicaCalls a + replicaCalls b := by
  induction a with
  | nil => simp [replicaCalls]
  | cons x xs ih => cases x <;> simp [replicaCalls, ih, Nat.add_right_comm]

/-- Counting primary queries distributes over trace concatenation. -/
theorem primaryCalls_append (a b : List Ev) :
    primaryCalls (a ++ b) = primaryCalls a + primaryCalls b := by
  induction a with
  | nil => simp [primaryCalls]
  | cons x xs ih => cases x <;> simp [primaryCalls, ih, Nat.add_right_comm]

/-- The key written by cacheStore is found with the stored value. -/
theorem cacheLookup_store (c : Cache) (k : String) (v : Product) (t : Nat) :
    cacheLookup (cacheStore c k v t) k = some v := by
  have h : (fun e : CEntry => e.key == k) ⟨k, v, t⟩ = true := by simp
  simp [cacheLookup, cacheStore, List.find?_cons_of_pos _ h]

/-- The key removed by cacheErase is absent. -/
theorem cacheLookup_erase (c : Cache) (k : String) :
    cacheLookup (cacheErase c k) k = none := by
  simp only [cacheLookup, cacheErase, Option.map_eq_none']
  rw [List.find?_eq_none]
  intro e he
  have := (List.mem_filter.mp he).2
  simpa using this

/-- Sample record used by the concrete witnesses. -/
def sampleProduct : Product := ⟨1, "Juice", 250, some 5⟩

/-- A keyspace holding the sample record under its key. -/
def sampleCache : Cache := [⟨cache_key 1, sampleProduct, 60⟩]

/-- A primary store about to assign id 1 at clock 7. -/
def store0 : Store := ⟨[], 1, 7⟩

/-- Replica unreachable, everything else healthy. -/
def behReplicaDown : Beh :=
  ⟨.success, .success, .success, .raises .operationalError, .answers⟩

/-- Primary unreachable, everything else healthy. -/
def behPrimaryDown : Beh :=
  ⟨.success, .success, .success, .answers, .raises .operationalError⟩

/-- Both stores unreachable (with distinct exception classes), cache
healthy. -/
def behBothDown : Beh :=
  ⟨.success, .success, .success, .raises .operationalError, .raises .interfaceError⟩

/-! Claim theorems. -/

/-- C1: when the cache entry for the id is present (and the cache is
reachable), get_product returns the cached value with the cache unchanged
and a trace containing no store access at all — whatever the stores hold,
so in particular even if the cached copy is stale. -/
theorem c1_cache_hit_no_store_access (cfg : Config) (b : Beh)
    (rr pr : List Product) (cache : Cache) (id : Nat) (p : Product)
    (hup : b.cacheGet = CacheOp.success)
    (hpresent : cacheLookup cache (cache_key id) = some p) :
    get_product cfg b rr pr cache id = (.ok p, cache, [.cacheGet]) ∧
    storeCalls (get_product cfg b rr pr cache id).2.2 = 0 ∧
    replicaCalls (get_product cfg b rr pr cache id).2.2 = 0 ∧
    primaryCalls (get_product cfg b rr pr cache id).2.2 = 0 := by
  have hmain : get_product cfg b rr pr cache id = (.ok p, cache, [.cacheGet]) := by
    simp [get_product, redis_get_json, r_get, hup, hpresent]
  exact ⟨hmain, by rw [hmain]; rfl, by rw [hmain]; rfl, by rw [hmain]; rfl⟩

/-- Witness for C1: a concrete cache hit, with a stale cached copy (the
stores are empty). -/
theorem c1_cache_hit_no_store_access_witness :
    get_product defaultConfig behAllOk [] [] sampleCache 1 =
      (.ok sampleProduct, sampleCache, [.cacheGet]) ∧
    storeCalls (get_product defaultConfig behAllOk [] [] sampleCache 1).2.2 = 0 ∧
    replicaCalls (get_product defaultConfig behAllOk [] [] sampleCache 1).2.2 = 0 ∧
    primaryCalls (get_product defaultConfig behAllOk [] [] sampleCache 1).2.2 = 0 :=
  c1_cache_hit_no_store_access defaultConfig behAllOk [] [] sampleCache 1
    sampleProduct rfl (by decide)

/-- C7: update_product with both fields absent answers BadRequest at once:
no store access, store and cache unchanged. -/
theorem c7_update_without_fields_bad_request (b : Beh) (cache : Cache)
    (s : Store) (id : Nat) :
    update_product b cache s id none none = (.badRequest, cache, s, []) ∧
    storeCalls (update_product b cache s id none none).2.2.2 = 0 := by
  exact ⟨rfl, rfl⟩

/-- C10: a non-connectivity exception from the replica fetch (any psycopg2
class other than OperationalError and InterfaceError) triggers no primary
fallback and is not reclassified: it propagates raw, the cache is
untouched. -/
theorem c10_non_connectivity_propagates_raw (cfg : Config) (b : Beh)
    (rr pr : List Product) (cache : Cache) (id : Nat) (e : PgExc)
    (hget : b.cacheGet = CacheOp.success)
    (hmiss : cacheLookup cache (cache_key id) = none)
    (hrep : b.replica = DbOp.raises e)
    (hnc : e.isConnectivity = false) :
    get_product cfg b rr pr cache id =
      (.uncaughtDb e, cache, [.cacheGet, .replicaFetch]) ∧
    primaryCalls (get_product cfg b rr pr cache id).2.2 = 0 ∧
    e ≠ PgExc.operationalError ∧ e ≠ PgExc.interfaceError := by
  have hmain : get_product cfg b rr pr cache id =
      (.uncaughtDb e, cache, [.cacheGet, .replicaFetch]) := by
    simp [get_product, redis_get_json, r_get, hget, hmiss,
      fetch_product_from_db, hrep, hnc]
  refine ⟨hmain, by rw [hmain]; rfl, ?_, ?_⟩
  · rintro rfl; simp [PgExc.isConnectivity] at hnc
  · rintro rfl; simp [PgExc.isConnectivity] at hnc

/-- Witness for C10: a ProgrammingError from the replica propagates raw,
with no primary fetch. -/
theorem c10_non_connectivity_propagates_raw_witness :
    get_product defaultConfig
        ⟨.success, .success, .success, .raises (.otherError "ProgrammingError"), .answers⟩
        [] [] [] 1 =
      (.uncaughtDb (.otherError "ProgrammingError"), [], [.cacheGet, .replicaFetch]) ∧
    primaryCalls (get_product defaultConfig
        ⟨.success, .success, .success, .raises (.otherError "ProgrammingError"), .answers⟩
        [] [] [] 1).2.2 = 0 ∧
    PgExc.otherError "ProgrammingError" ≠ PgExc.operationalError ∧
    PgExc.otherError "ProgrammingError" ≠ PgExc.interfaceError :=
  c10_non_connectivity_propagates_raw defaultConfig
    ⟨.success, .success, .success, .raises (.otherError "ProgrammingError"), .answers⟩
    [] [] [] 1 (.otherError "ProgrammingError") rfl rfl rfl rfl

/-- C2: store round-trips per get_product request: zero on a cache hit;
exactly one (the replica, never the primary) on a miss with an answering
replica; exactly one replica and one primary query, in that order, when
the replica raises a connectivity exception. -/
theorem c2_store_roundtrip_counts (cfg : Config) (b : Beh)
    (rr pr : List Product) (cache : Cache) (id : Nat) :
    (∀ p, b.cacheGet = CacheOp.success →
      cacheLookup cache (cache_key id) = some p →
      replicaCalls (get_product cfg b rr pr cache id).2.2 = 0 ∧
      primaryCalls (get_product cfg b rr pr cache id).2.2 = 0) ∧
    (b.cacheGet = CacheOp.success → cacheLookup cache (cache_key id) = none →
      b.replica = DbOp.answers →
      replicaCalls (get_product cfg b rr pr cache id).2.2 = 1 ∧
      primaryCalls (get_product cfg b rr pr cache id).2.2 = 0) ∧
    (∀ e, b.cacheGet = CacheOp.success →
      cacheLookup cache (cache_key id) = none →
      b.replica = DbOp.raises e → e.isConnectivity = true →
      replicaCalls (get_product cfg b rr pr cache id).2.2 = 1 ∧
      primaryCalls (get_product cfg b rr pr cache id).2.2 = 1 ∧
      (get_product cfg b rr pr cache id).2.2.take 3 =
        [Ev.cacheGet, Ev.replicaFetch, Ev.primaryFetch]) := by
  refine ⟨?_, ?_, ?_⟩
  · intro p hup hpresent
    have hmain : get_product cfg b rr pr cache id = (.ok p, cache, [.cacheGet]) := by
      simp [get_product, redis_get_json, r_get, hup, hpresent]
    rw [hmain]; exact ⟨rfl, rfl⟩
  · intro hup hmiss hrep
    have hprobe := redis_get_json_of_miss b.cacheGet cache (cache_key id) hmiss
    have hmain : get_product cfg b rr pr cache id =
        finishGet cfg b cache (cache_key id) (rr.find? (fun r => r.id == id))
          [.cacheGet, .replicaFetch] := by
      simp [get_product, hprobe, fetch_product_from_db, hrep]
    rw [hmain]
    rcases finishGet_trace cfg b cache (cache_key id)
        (rr.find? (fun r => r.id == id)) [.cacheGet, .replicaFetch] with h | h <;>
      (rw [h]; decide)
  · intro e hup hmiss hrep hconn
    have hprobe := redis_get_json_of_miss b.cacheGet cache (cache_key id) hmiss
    cases hp : b.primary with
    | answers =>
      have hmain : get_product cfg b rr pr cache id =
          finishGet cfg b cache (cache_key id) (pr.find? (fun r => r.id == id))
            [.cacheGet, .replicaFetch, .primaryFetch] := by
        simp [get_product, hprobe, fetch_product_from_db, hrep, hconn, hp]
      rw [hmain]
      rcases finishGet_trace cfg b cache (cache_key id)
          (pr.find? (fun r => r.id == id))
          [.cacheGet, .replicaFetch, .primaryFetch] with h | h <;>
        (rw [h]; decide)
    | raises e2 =>
      cases he2 : e2.isConnectivity with
      | true =>
        have hmain : get_product cfg b rr pr cache id =
            (.unavailable e2, cache, [.cacheGet, .replicaFetch, .primaryFetch]) := by
          simp [get_product, hprobe, fetch_product_from_db, hrep, hconn, hp, he2]
        rw [hmain]; exact ⟨rfl, rfl, rfl⟩
      | false =>
        have hmain : get_product cfg b rr pr cache id =
            (.uncaughtDb e2, cache, [.cacheGet, .replicaFetch, .primaryFetch]) := by
          simp [get_product, hprobe, fetch_product_from_db, hrep, hconn, hp, he2]
        rw [hmain]; exact ⟨rfl, rfl, rfl⟩

/-- Witness for C2: the three scenarios at concrete inputs — a hit on the
sample cache, a miss answered by the replica, and a miss with the replica
down and the primary answering. -/
theorem c2_store_roundtrip_counts_witness :
    (replicaCalls (get_product defaultConfig behAllOk [] [] sampleCache 1).2.2 = 0 ∧
     primaryCalls (get_product defaultConfig behAllOk [] [] sampleCache 1).2.2 = 0) ∧
    (replicaCalls (get_product defaultConfig behAllOk [sampleProduct] [] [] 1).2.2 = 1 ∧
     primaryCalls (get_product defaultConfig behAllOk [sampleProduct] [] [] 1).2.2 = 0) ∧
    (replicaCalls (get_product defaultConfig behReplicaDown [] [sampleProduct] [] 1).2.2 = 1 ∧
     primaryCalls (get_product defaultConfig behReplicaDown [] [sampleProduct] [] 1).2.2 = 1 ∧
     (get_product defaultConfig behReplicaDown [] [sampleProduct] [] 1).2.2.take 3 =
       [Ev.cacheGet, Ev.replicaFetch, Ev.primaryFetch]) :=
  ⟨(c2_store_roundtrip_counts defaultConfig behAllOk [] [] sampleCache 1).1
      sampleProduct rfl (by decide),
   (c2_store_roundtrip_counts defaultConfig behAllOk [sampleProduct] [] [] 1).2.1
      rfl rfl rfl,
   (c2_store_roundtrip_counts defaultConfig behReplicaDown [] [sampleProduct] [] 1).2.2
      .operationalError rfl rfl rfl rfl⟩

/-- C3: on a miss with the replica raising a connectivity exception and
the primary holding the row, get_product returns the row and the cache
afterwards holds it under product:{id} with the configured ttl. -/
theorem c3_fallback_returns_and_caches (cfg : Config) (b : Beh)
    (rr pr : List Product) (cache : Cache) (id : Nat) (e : PgExc) (p : Product)
    (hget : b.cacheGet = CacheOp.success)
    (hmiss : cacheLookup cache (cache_key id) = none)
    (hrep : b.replica = DbOp.raises e) (hconn : e.isConnectivity = true)
    (hpri : b.primary = DbOp.answers)
    (hrow : pr.find? (fun r => r.id == id) = some p)
    (hset : b.cacheSet = CacheOp.success) :
    get_product cfg b rr pr cache id =
      (.ok p, cacheStore cache (cache_key id) p cfg.cacheTtlSeconds,
       [.cacheGet, .replicaFetch, .primaryFetch, .cacheSet]) ∧
    cacheLookup (get_product cfg b rr pr cache id).2.1 (cache_key id) = some p ∧
    (get_product cfg b rr pr cache id).2.1.find? (fun en => en.key == cache_key id) =
      some ⟨cache_key id, p, cfg.cacheTtlSeconds⟩ := by
  have hmain : get_product cfg b rr pr cache id =
      (.ok p, cacheStore cache (cache_key id) p cfg.cacheTtlSeconds,
       [.cacheGet, .replicaFetch, .primaryFetch, .cacheSet]) := by
    simp [get_product, redis_get_json, r_get, hget, hmiss, fetch_product_from_db,
      hrep, hconn, hpri, hrow, finishGet, redis_set_json, r_setex, hset]
  have hpos : (fun en : CEntry => en.key == cache_key id)
      ⟨cache_key id, p, cfg.cacheTtlSeconds⟩ = true := by simp
  refine ⟨hmain, ?_, ?_⟩
  · rw [hmain]; exact cacheLookup_store cache (cache_key id) p cfg.cacheTtlSeconds
  · rw [hmain]
    simp [cacheStore, List.find?_cons_of_pos _ hpos]

/-- Witness for C3: replica down, primary holding the sample record,
empty cache. -/
theorem c3_fallback_returns_and_caches_witness :
    get_product defaultConfig behReplicaDown [] [sampleProduct] [] 1 =
      (.ok sampleProduct, cacheStore [] (cache_key 1) sampleProduct 60,
       [.cacheGet, .replicaFetch, .primaryFetch, .cacheSet]) ∧
    cacheLookup (get_product defaultConfig behReplicaDown [] [sampleProduct] [] 1).2.1
      (cache_key 1) = some sampleProduct ∧
    (get_product defaultConfig behReplicaDown [] [sampleProduct] [] 1).2.1.find?
      (fun en => en.key == cache_key 1) = some ⟨cache_key 1, sampleProduct, 60⟩ :=
  c3_fallback_returns_and_caches defaultConfig behReplicaDown [] [sampleProduct]
    [] 1 .operationalError sampleProduct rfl rfl rfl rfl rfl (by decide) rfl

/-- C4: on a miss with both the replica and the primary fallback raising
connectivity exceptions, get_product answers 503 carrying the class of
the connectivity exception that terminated the attempt sequence (the
primary's), with exactly one query per target, no cache write, and the
cache unchanged. -/
theorem c4_double_failure_service_unavailable (cfg : Config) (b : Beh)
    (rr pr : List Product) (cache : Cache) (id : Nat) (e1 e2 : PgExc)
    (hget : b.cacheGet = CacheOp.success)
    (hmiss : cacheLookup cache (cache_key id) = none)
    (hrep : b.replica = DbOp.raises e1) (h1 : e1.isConnectivity = true)
    (hpri : b.primary = DbOp.raises e2) (h2 : e2.isConnectivity = true) :
    get_product cfg b rr pr cache id =
      (.unavailable e2, cache, [.cacheGet, .replicaFetch, .primaryFetch]) ∧
    cacheSetCalls (get_product cfg b rr pr cache id).2.2 = 0 ∧
    replicaCalls (get_product cfg b rr pr cache id).2.2 = 1 ∧
    primaryCalls (get_product cfg b rr pr cache id).2.2 = 1 := by
  have hmain : get_product cfg b rr pr cache id =
      (.unavailable e2, cache, [.cacheGet, .replicaFetch, .primaryFetch]) := by
    simp [get_product, redis_get_json, r_get, hget, hmiss,
      fetch_product_from_db, hrep, h1, hpri, h2]
  refine ⟨hmain, ?_, ?_, ?_⟩ <;> (rw [hmain]; rfl)

/-- Witness for C4: replica raising OperationalError, primary raising
InterfaceError, empty cache; the 503 carries InterfaceError. -/
theorem c4_double_failure_service_unavailable_witness :
    get_product defaultConfig behBothDown [] [] [] 1 =
      (.unavailable .interfaceError, [], [.cacheGet, .replicaFetch, .primaryFetch]) ∧
    cacheSetCalls (get_product defaultConfig behBothDown [] [] [] 1).2.2 = 0 ∧
    replicaCalls (get_product defaultConfig behBothDown [] [] [] 1).2.2 = 1 ∧
    primaryCalls (get_product defaultConfig behBothDown [] [] [] 1).2.2 = 1 :=
  c4_double_failure_service_unavailable defaultConfig behBothDown [] [] [] 1
    .operationalError .interfaceError rfl rfl rfl rfl rfl rfl

/-- On a cache miss (key absent), get_product always performs exactly one
replica query, whatever the client behaviours. -/
theorem get_product_on_miss_reads_store (cfg : Config) (b : Beh)
    (rr pr : List Product) (cache : Cache) (id : Nat)
    (hmiss : cacheLookup cache (cache_key id) = none) :
    replicaCalls (get_product cfg b rr pr cache id).2.2 = 1 := by
  have hprobe := redis_get_json_of_miss b.cacheGet cache (cache_key id) hmiss
  cases hr : b.replica with
  | answers =>
    have hmain : get_product cfg b rr pr cache id =
        finishGet cfg b cache (cache_key id) (rr.find? (fun r => r.id == id))
          [.cacheGet, .replicaFetch] := by
      simp [get_product, hprobe, fetch_product_from_db, hr]
    rw [hmain]
    rcases finishGet_trace cfg b cache (cache_key id)
        (rr.find? (fun r => r.id == id)) [.cacheGet, .replicaFetch] with h | h <;>
      (rw [h]; decide)
  | raises e =>
    cases he : e.isConnectivity with
    | false =>
      have hmain : get_product cfg b rr pr cache id =
          (.uncaughtDb e, cache, [.cacheGet, .replicaFetch]) := by
        simp [get_product, hprobe, fetch_product_from_db, hr, he]
      rw [hmain]; rfl
    | true =>
      cases hp : b.primary with
      | answers =>
        have hmain : get_product cfg b rr pr cache id =
            finishGet cfg b cache (cache_key id) (pr.find? (fun r => r.id == id))
              [.cacheGet, .replicaFetch, .primaryFetch] := by
          simp [get_product, hprobe, fetch_product_from_db, hr, he, hp]
        rw [hmain]
        rcases finishGet_trace cfg b cache (cache_key id)
            (pr.find? (fun r => r.id == id))
            [.cacheGet, .replicaFetch, .primaryFetch] with h | h <;>
          (rw [h]; decide)
      | raises e2 =>
        cases he2 : e2.isConnectivity with
        | true =>
          have hmain : get_product cfg b rr pr cache id =
              (.unavailable e2, cache, [.cacheGet, .replicaFetch, .primaryFetch]) := by
            simp [get_product, hprobe, fetch_product_from_db, hr, he, hp, he2]
          rw [hmain]; rfl
        | false =>
          have hmain : get_product cfg b rr pr cache id =
              (.uncaughtDb e2, cache, [.cacheGet, .replicaFetch, .primaryFetch]) := by
            simp [get_product, hprobe, fetch_product_from_db, hr, he, hp, he2]
          rw [hmain]; rfl

/-- A one-row primary store used by the write-path witnesses. -/
def store1 : Store := ⟨[sampleProduct], 2, 9⟩

/-- C5: a successful update issues exactly one primary statement, commits,
and only then issues a cache delete (never a cache set); it returns the
updated record, the cache entry for the id is absent afterwards, and any
subsequent get_product for that id performs a store read. -/
theorem c5_update_invalidate_after_commit (b : Beh) (cache : Cache) (s : Store)
    (id : Nat) (name : Option String) (price : Option Int) (p0 : Product)
    (hfields : name.isSome = true ∨ price.isSome = true)
    (hpri : b.primary = DbOp.answers)
    (hrow : s.rows.find? (fun r => r.id == id) = some p0)
    (hdel : b.cacheDel = CacheOp.success) :
    update_product b cache s id name price =
      (.ok { p0 with name := name.getD p0.name
                     price_cents := price.getD p0.price_cents
                     updated_at := some s.now },
       cacheErase cache (cache_key id),
       { s with rows := s.rows.map (fun q =>
           if q.id == id then
             { p0 with name := name.getD p0.name
                       price_cents := price.getD p0.price_cents
                       updated_at := some s.now }
           else q) },
       [.primaryUpdate, .commit, .cacheDel]) ∧
    cacheLookup (update_product b cache s id name price).2.1 (cache_key id) = none ∧
    (∀ cfg b2 rr pr,
      replicaCalls (get_product cfg b2 rr pr
        (update_product b cache s id name price).2.1 id).2.2 = 1) := by
  have hguard : (name.isNone && price.isNone) = false := by
    rcases hfields with h | h <;> cases name <;> cases price <;> simp_all
  have hmain : update_product b cache s id name price =
      (.ok { p0 with name := name.getD p0.name
                     price_cents := price.getD p0.price_cents
                     updated_at := some s.now },
       cacheErase cache (cache_key id),
       { s with rows := s.rows.map (fun q =>
           if q.id == id then
             { p0 with name := name.getD p0.name
                       price_cents := price.getD p0.price_cents
                       updated_at := some s.now }
           else q) },
       [.primaryUpdate, .commit, .cacheDel]) := by
    simp [update_product, hguard, db_update, hpri, hrow, redis_del, r_delete, hdel]
  refine ⟨hmain, ?_, ?_⟩
  · rw [hmain]; exact cacheLookup_erase cache (cache_key id)
  · intro cfg b2 rr pr
    rw [hmain]
    exact get_product_on_miss_reads_store cfg b2 rr pr _ id
      (cacheLookup_erase cache (cache_key id))

/-- Witness for C5: updating the price of the cached sample record on a
one-row store; afterwards the key is gone and a get reads the replica. -/
theorem c5_update_invalidate_after_commit_witness :
    update_product behAllOk sampleCache store1 1 none (some 300) =
      (.ok { sampleProduct with
               name := (none : Option String).getD sampleProduct.name
               price_cents := (some (300 : Int)).getD sampleProduct.price_cents
               updated_at := some store1.now },
       cacheErase sampleCache (cache_key 1),
       { store1 with rows := store1.rows.map (fun q =>
           if q.id == 1 then
             { sampleProduct with
                 name := (none : Option String).getD sampleProduct.name
                 price_cents := (some (300 : Int)).getD sampleProduct.price_cents
                 updated_at := some store1.now }
           else q) },
       [.primaryUpdate, .commit, .cacheDel]) ∧
    cacheLookup (update_product behAllOk sampleCache store1 1 none (some 300)).2.1
      (cache_key 1) = none ∧
    replicaCalls (get_product defaultConfig behAllOk [] []
      (update_product behAllOk sampleCache store1 1 none (some 300)).2.1 1).2.2 = 1 := by
  obtain ⟨h1, h2, h3⟩ := c5_update_invalidate_after_commit behAllOk sampleCache
    store1 1 none (some 300) sampleProduct (Or.inr rfl) rfl (by decide) rfl
  exact ⟨h1, h2, h3 defaultConfig behAllOk [] []⟩

/-- C6: a successful create returns a record with the store-assigned id,
the supplied name and price_cents, and a non-null updated_at, and
prefills the cache with exactly that record under product:{id}; a
connectivity exception from the primary insert yields 503. -/
theorem c6_create_assigns_and_prefills (cfg : Config) (b : Beh) (cache : Cache)
    (s : Store) (name : String) (price : Int) :
    (b.primary = DbOp.answers → b.cacheSet = CacheOp.success →
      ∃ p, create_product cfg b cache s name price =
          (.ok p, cacheStore cache (cache_key p.id) p cfg.cacheTtlSeconds,
           { rows := s.rows ++ [p], nextId := s.nextId + 1, now := s.now },
           [.primaryInsert, .commit, .cacheSet]) ∧
        p.id = s.nextId ∧ p.name = name ∧ p.price_cents = price ∧
        p.updated_at.isSome = true ∧
        cacheLookup (create_product cfg b cache s name price).2.1 (cache_key p.id) =
          some p) ∧
    (∀ e, b.primary = DbOp.raises e → e.isConnectivity = true →
      create_product cfg b cache s name price =
        (.unavailable e, cache, s, [.primaryInsert])) := by
  constructor
  · intro hpri hset
    have hmain : create_product cfg b cache s name price =
        (.ok (⟨s.nextId, name, price, some s.now⟩ : Product),
         cacheStore cache (cache_key s.nextId)
           (⟨s.nextId, name, price, some s.now⟩ : Product) cfg.cacheTtlSeconds,
         { rows := s.rows ++ [(⟨s.nextId, name, price, some s.now⟩ : Product)],
           nextId := s.nextId + 1, now := s.now },
         [.primaryInsert, .commit, .cacheSet]) := by
      simp [create_product, db_insert, hpri, redis_set_json, r_setex, hset]
    refine ⟨⟨s.nextId, name, price, some s.now⟩, hmain, rfl, rfl, rfl, rfl, ?_⟩
    rw [hmain]
    exact cacheLookup_store cache (cache_key s.nextId) _ cfg.cacheTtlSeconds
  · intro e hpri hconn
    simp [create_product, db_insert, hpri, hconn]

/-- Witness for C6: creating Juice at 250 on an empty store assigns id 1
and prefills the cache; the same request against an unreachable primary
yields 503. -/
theorem c6_create_assigns_and_prefills_witness :
    (∃ p, create_product defaultConfig behAllOk [] store0 "Juice" 250 =
        (.ok p, cacheStore [] (cache_key p.id) p 60,
         { rows := [] ++ [p], nextId := 2, now := 7 },
         [.primaryInsert, .commit, .cacheSet]) ∧
      p.id = 1 ∧ p.name = "Juice" ∧ p.price_cents = 250 ∧
      p.updated_at.isSome = true ∧
      cacheLookup (create_product defaultConfig behAllOk [] store0 "Juice" 250).2.1
        (cache_key p.id) = some p) ∧
    create_product defaultConfig behPrimaryDown [] store0 "Juice" 250 =
      (.unavailable .operationalError, [], store0, [.primaryInsert]) :=
  ⟨(c6_create_assigns_and_prefills defaultConfig behAllOk [] store0 "Juice" 250).1
      rfl rfl,
   (c6_create_assigns_and_prefills defaultConfig behPrimaryDown [] store0 "Juice" 250).2
      .operationalError rfl rfl⟩

/-- C8: every cache client failure is absorbed by the adapters — get
answers absent, set and delete complete with the keyspace unchanged — and
a cache failure never changes the HTTP outcome of any request: a get with
a failing cache answers exactly as a get over an empty healthy cache, and
a write's outcome is independent of its cache invalidation/prefill call. -/
theorem c8_cache_failures_fully_absorbed :
    (∀ e c k, redis_get_json (.failure e) c k = .ok none) ∧
    (∀ e c k v t, redis_set_json (.failure e) c k v t = .ok c) ∧
    (∀ e c k, redis_del (.failure e) c k = .ok c) ∧
    (∀ cfg (rBeh pBeh : DbOp) rr pr c id e1 e2 (d : CacheOp),
      (get_product cfg ⟨.failure e1, .failure e2, d, rBeh, pBeh⟩ rr pr c id).1 =
      (get_product cfg ⟨.success, .success, d, rBeh, pBeh⟩ rr pr [] id).1) ∧
    (∀ (g sBeh : CacheOp) (rBeh pBeh : DbOp) e c s id n pc,
      (update_product ⟨g, sBeh, .failure e, rBeh, pBeh⟩ c s id n pc).1 =
      (update_product ⟨g, sBeh, .success, rBeh, pBeh⟩ c s id n pc).1) ∧
    (∀ cfg (g dBeh : CacheOp) (rBeh pBeh : DbOp) e c s n pc,
      (create_product cfg ⟨g, .failure e, dBeh, rBeh, pBeh⟩ c s n pc).1 =
      (create_product cfg ⟨g, .success, dBeh, rBeh, pBeh⟩ c s n pc).1) := by
  refine ⟨redis_get_json_failure, redis_set_json_failure, redis_del_failure,
    ?_, ?_, ?_⟩
  · intro cfg rBeh pBeh rr pr c id e1 e2 d
    have hprobeL : redis_get_json (CacheOp.failure e1) c (cache_key id) = .ok none :=
      redis_get_json_failure e1 c (cache_key id)
    have hprobeR : redis_get_json CacheOp.success ([] : Cache) (cache_key id) =
        .ok none := rfl
    cases hr : rBeh with
    | answers =>
      have hA : get_product cfg ⟨.failure e1, .failure e2, d, .answers, pBeh⟩ rr pr c id =
          finishGet cfg ⟨.failure e1, .failure e2, d, .answers, pBeh⟩ c (cache_key id)
            (rr.find? (fun r => r.id == id)) [.cacheGet, .replicaFetch] := by
        simp [get_product, hprobeL, fetch_product_from_db]
      have hB : get_product cfg ⟨.success, .success, d, .answers, pBeh⟩ rr pr [] id =
          finishGet cfg ⟨.success, .success, d, .answers, pBeh⟩ [] (cache_key id)
            (rr.find? (fun r => r.id == id)) [.cacheGet, .replicaFetch] := by
        simp [get_product, hprobeR, fetch_product_from_db]
      rw [hA, hB, finishGet_fst, finishGet_fst]
    | raises e =>
      cases he : e.isConnectivity with
      | false =>
        have hA : get_product cfg ⟨.failure e1, .failure e2, d, .raises e, pBeh⟩ rr pr c id =
            (.uncaughtDb e, c, [.cacheGet, .replicaFetch]) := by
          simp [get_product, hprobeL, fetch_product_from_db, he]
        have hB : get_product cfg ⟨.success, .success, d, .raises e, pBeh⟩ rr pr [] id =
            (.uncaughtDb e, [], [.cacheGet, .replicaFetch]) := by
          simp [get_product, hprobeR, fetch_product_from_db, he]
        rw [hA, hB]
      | true =>
        cases hp : pBeh with
        | answers =>
          have hA : get_product cfg ⟨.failure e1, .failure e2, d, .raises e, .answers⟩
              rr pr c id =
              finishGet cfg ⟨.failure e1, .failure e2, d, .raises e, .answers⟩ c
                (cache_key id) (pr.find? (fun r => r.id == id))
                [.cacheGet, .replicaFetch, .primaryFetch] := by
            simp [get_product, hprobeL, fetch_product_from_db, he]
          have hB : get_product cfg ⟨.success, .success, d, .raises e, .answers⟩
              rr pr [] id =
              finishGet cfg ⟨.success, .success, d, .raises e, .answers⟩ []
                (cache_key id) (pr.find? (fun r => r.id == id))
                [.cacheGet, .replicaFetch, .primaryFetch] := by
            simp [get_product, hprobeR, fetch_product_from_db, he]
          rw [hA, hB, finishGet_fst, finishGet_fst]
        | raises e2' =>
          cases he2 : e2'.isConnectivity with
          | true =>
            have hA : get_product cfg ⟨.failure e1, .failure e2, d, .raises e, .raises e2'⟩
                rr pr c id =
                (.unavailable e2', c, [.cacheGet, .replicaFetch, .primaryFetch]) := by
              simp [get_product, hprobeL, fetch_product_from_db, he, he2]
            have hB : get_product cfg ⟨.success, .success, d, .raises e, .raises e2'⟩
                rr pr [] id =
                (.unavailable e2', [], [.cacheGet, .replicaFetch, .primaryFetch]) := by
              simp [get_product, hprobeR, fetch_product_from_db, he, he2]
            rw [hA, hB]
          | false =>
            have hA : get_product cfg ⟨.failure e1, .failure e2, d, .raises e, .raises e2'⟩
                rr pr c id =
                (.uncaughtDb e2', c, [.cacheGet, .replicaFetch, .primaryFetch]) := by
              simp [get_product, hprobeL, fetch_product_from_db, he, he2]
            have hB : get_product cfg ⟨.success, .success, d, .raises e, .raises e2'⟩
                rr pr [] id =
                (.uncaughtDb e2', [], [.cacheGet, .replicaFetch, .primaryFetch]) := by
              simp [get_product, hprobeR, fetch_product_from_db, he, he2]
            rw [hA, hB]
  · intro g sBeh rBeh pBeh e c s id n pc
    cases hn : n.isNone && pc.isNone with
    | true => simp [update_product, hn]
    | false =>
      cases hu : db_update pBeh s id n pc with
      | error ePg =>
        cases hce : ePg.isConnectivity <;> simp [update_product, hn, hu, hce]
      | ok res =>
        obtain ⟨row, s'⟩ := res
        cases row with
        | none => simp [update_product, hn, hu]
        | some p =>
          simp [update_product, hn, hu, redis_del, r_delete, cacheCaught_all]
  · intro cfg g dBeh rBeh pBeh e c s n pc
    cases hi : db_insert pBeh s n pc with
    | error ePg =>
      cases hce : ePg.isConnectivity <;> simp [create_product, hi, hce]
    | ok res =>
      obtain ⟨p, s'⟩ := res
      simp [create_product, hi, redis_set_json, r_setex, cacheCaught_all]

/-- find? over an append whose first part holds no match. -/
theorem find?_append_of_none {α : Type} (p : α → Bool) (l1 l2 : List α)
    (h : l1.find? p = none) : (l1 ++ l2).find? p = l2.find? p := by
  induction l1 with
  | nil => rfl
  | cons x xs ih =>
    cases hx : p x with
    | true => simp [List.find?_cons_of_pos _ hx] at h
    | false =>
      rw [List.find?_cons_of_neg _ (by simp [hx])] at h
      rw [List.cons_append, List.find?_cons_of_neg _ (by simp [hx])]
      exact ih h

/-- C9: after a successful create, a get for the assigned id with the
cache cleared (and an answering, caught-up replica) returns a record with
the created name and price_cents. -/
theorem c9_create_then_get_roundtrip (cfg : Config) (b1 b2 : Beh) (cache : Cache)
    (s : Store) (name : String) (price : Int) (pr : List Product)
    (hins : b1.primary = DbOp.answers)
    (hfresh : s.rows.find? (fun r => r.id == s.nextId) = none)
    (hrep : b2.replica = DbOp.answers) :
    ∃ p, (create_product cfg b1 cache s name price).1 = .ok p ∧
      ∃ q, (get_product cfg b2 (create_product cfg b1 cache s name price).2.2.1.rows
              pr [] p.id).1 = .ok q ∧ q.name = name ∧ q.price_cents = price := by
  obtain ⟨c', hc'⟩ := redis_set_json_total b1.cacheSet cache
    (cache_key s.nextId) ⟨s.nextId, name, price, some s.now⟩ cfg.cacheTtlSeconds
  have hcreate : create_product cfg b1 cache s name price =
      (.ok (⟨s.nextId, name, price, some s.now⟩ : Product), c',
       { rows := s.rows ++ [⟨s.nextId, name, price, some s.now⟩],
         nextId := s.nextId + 1, now := s.now },
       [.primaryInsert, .commit, .cacheSet]) := by
    simp [create_product, db_insert, hins, hc']
  have hfind : (s.rows ++ [(⟨s.nextId, name, price, some s.now⟩ : Product)]).find?
      (fun r => r.id == s.nextId) = some ⟨s.nextId, name, price, some s.now⟩ := by
    rw [find?_append_of_none _ _ _ hfresh]
    simp [List.find?]
  obtain ⟨c2', hc2'⟩ := redis_set_json_total b2.cacheSet [] (cache_key s.nextId)
    ⟨s.nextId, name, price, some s.now⟩ cfg.cacheTtlSeconds
  have hget : (get_product cfg b2 (s.rows ++ [⟨s.nextId, name, price, some s.now⟩])
      pr [] s.nextId).1 = .ok ⟨s.nextId, name, price, some s.now⟩ := by
    have hprobe : redis_get_json b2.cacheGet [] (cache_key s.nextId) = .ok none :=
      redis_get_json_of_miss _ _ _ rfl
    simp [get_product, hprobe, fetch_product_from_db, hrep, hfind, finishGet, hc2']
  refine ⟨⟨s.nextId, name, price, some s.now⟩, by rw [hcreate], ?_⟩
  refine ⟨⟨s.nextId, name, price, some s.now⟩, ?_, rfl, rfl⟩
  have hrows : (create_product cfg b1 cache s name price).2.2.1.rows =
      s.rows ++ [⟨s.nextId, name, price, some s.now⟩] := by rw [hcreate]
  rw [hrows]
  exact hget

/-- Witness for C9: create Juice at 250 on the empty store, then read id 1
back with an empty cache. -/
theorem c9_create_then_get_roundtrip_witness :
    ∃ p, (create_product defaultConfig behAllOk [] store0 "Juice" 250).1 = .ok p ∧
      ∃ q, (get_product defaultConfig behAllOk
              (create_product defaultConfig behAllOk [] store0 "Juice" 250).2.2.1.rows
              [] [] p.id).1 = .ok q ∧ q.name = "Juice" ∧ q.price_cents = 250 :=
  c9_create_then_get_roundtrip defaultConfig behAllOk behAllOk [] store0
    "Juice" 250 [] rfl rfl rfl

end ProductsApi
